import Mathlib

set_option maxHeartbeats 1000000

namespace TypsoJs

/-- Codes for the JavaScript functions that appear as values in the model.
Functions are defunctionalised: each code denotes a unary JS function,
applied through `applyPred`.  (Closures and exceptions thrown from inside a
predicate are outside the model; predicates here are total.) -/
inductive FnCode where
  | retTrue
  | retFalse
  | retUndefined
  | typeofIs (t : String)
deriving DecidableEq

/-- JavaScript runtime values.  Numbers are modelled as integers, with NaN a
separate value; an object carries its own enumerable fields (in insertion
order; any value produced by real JS code has unique keys) together with the
chain of class names its prototype chain answers to (for instanceof); a
function value carries its code and its name. -/
inductive JSVal where
  | undefined
  | null
  | bool (b : Bool)
  | num (n : Int)
  | nan
  | str (s : String)
  | fn (code : FnCode) (name : String)
  | arr (elems : List JSVal)
  | obj (fields : List (String × JSVal)) (cls : List String)

/-- The JS `typeof` operator. -/
def jsTypeof : JSVal → String
  | .undefined => "undefined"
  | .null => "object"
  | .bool _ => "boolean"
  | .num _ => "number"
  | .nan => "number"
  | .str _ => "string"
  | .fn _ _ => "function"
  | .arr _ => "object"
  | .obj _ _ => "object"

/-- Application of a modelled JS function to an argument. -/
def applyPred (p : FnCode) (v : JSVal) : JSVal :=
  match p with
  | .retTrue => .bool true
  | .retFalse => .bool false
  | .retUndefined => .undefined
  | .typeofIs t => .bool (jsTypeof v == t)

/-- JS truthiness: undefined, null, false, 0, NaN and "" are falsy. -/
def jsTruthy : JSVal → Bool
  | .undefined => false
  | .null => false
  | .bool b => b
  | .num n => n != 0
  | .nan => false
  | .str s => s != ""
  | .fn _ _ => true
  | .arr _ => true
  | .obj _ _ => true

/-- The JS `Array.isArray` test. -/
def isArray : JSVal → Bool
  | .arr _ => true
  | _ => false

/-- Whether a value is the undefined value (JS `v === undefined`). -/
def isUndef : JSVal → Bool
  | .undefined => true
  | _ => false

/-- JS strict equality `v === lit` against a string literal (true only when
`v` is that very string). -/
def strictEqStr (v : JSVal) (lit : String) : Bool :=
  match v with
  | .str t => t == lit
  | _ => false

/-- Whether a value is null or undefined (these print as "" inside arrays). -/
def isNullish : JSVal → Bool
  | .undefined => true
  | .null => true
  | _ => false

mutual

/-- String conversion, as used by template-literal interpolation.  Function
source text is abstracted to the function name; array elements that are
null or undefined print as the empty string, as in JS `Array.prototype.join`. -/
def jsToString : JSVal → String
  | .undefined => "undefined"
  | .null => "null"
  | .bool b => if b then "true" else "false"
  | .num n => toString n
  | .nan => "NaN"
  | .str s => s
  | .fn _ nm => "function " ++ nm
  | .obj _ _ => "[object Object]"
  | .arr a => String.intercalate "," (jsToStringElems a)

/-- The element strings of `Array.prototype.join`. -/
def jsToStringElems : List JSVal → List String
  | [] => []
  | v :: rest => (if isNullish v then "" else jsToString v) :: jsToStringElems rest

end

/-- Numeric conversion of a string (JS `Number(s)` restricted to the
integer-valued fragment of the model): whitespace-only is 0, otherwise a
decimal integer parse, anything else NaN (none). -/
def strToNumber (s : String) : Option Int :=
  if s.trim = "" then some 0 else s.trim.toInt?

/-- JS `ToNumber`, restricted to the integer-valued numbers of the model.
`none` stands for NaN. -/
def toNumber : JSVal → Option Int
  | .undefined => none
  | .null => some 0
  | .bool b => some (if b then 1 else 0)
  | .num n => some n
  | .nan => none
  | .str s => strToNumber s
  | .fn _ _ => none
  | .arr a => strToNumber (jsToString (.arr a))
  | .obj _ _ => none

/-- The JS `<` comparison: two strings compare lexicographically, anything
else is compared numerically, and any comparison involving NaN is false. -/
def jsLt (a b : JSVal) : Bool :=
  match a, b with
  | .str sa, .str sb => decide (sa < sb)
  | a, b =>
      match toNumber a, toNumber b with
      | some x, some y => decide (x < y)
      | _, _ => false

/-- First-match lookup of an own field, `undefined` when absent. -/
def fieldVal : List (String × JSVal) → String → JSVal
  | [], _ => .undefined
  | (k', v) :: rest, k => if k == k' then v else fieldVal rest k

/-- Errors: `thrown` is an Error raised by the library through `_throwError`;
`native` is a TypeError raised by the JS engine itself (property access on
null/undefined, calling a non-function, ...). -/
inductive JSErr where
  | thrown (msg : String)
  | native (msg : String)
deriving DecidableEq

/-- Property read `v[key]` for a string key.  On null and undefined it is a
native TypeError; strings, arrays and functions expose `length` (and a
function its `name`); other primitives yield undefined. -/
def getProp (v : JSVal) (key : String) : Except JSErr JSVal :=
  match v with
  | .undefined =>
      .error (.native ("TypeError: Cannot read properties of undefined (reading " ++ key ++ ")"))
  | .null =>
      .error (.native ("TypeError: Cannot read properties of null (reading " ++ key ++ ")"))
  | .obj fields _ => .ok (fieldVal fields key)
  | .str s => .ok (if key == "length" then .num s.length else .undefined)
  | .arr a =>
      .ok (if key == "length" then .num a.length
           else match key.toNat? with
                | some i => a.getD i .undefined
                | none => .undefined)
  | .fn _ nm =>
      .ok (if key == "length" then .num 1 else if key == "name" then .str nm else .undefined)
  | _ => .ok .undefined

/-- Index read `v[i]` on a value already known to be an array. -/
def getIndex (v : JSVal) (i : Nat) : JSVal :=
  match v with
  | .arr a => a.getD i .undefined
  | _ => .undefined

/-- Assignment into an association list: overwrite the first binding of the
key, or append a new binding. -/
def setField : List (String × JSVal) → String → JSVal → List (String × JSVal)
  | [], k, x => [(k, x)]
  | (k', v') :: rest, k, x =>
      if k' == k then (k, x) :: rest else (k', v') :: setField rest k x

/-- Property write `v[key] = x`.  Native TypeError on null/undefined; a write
to any other non-object is silently ignored (sloppy mode); on an object the
field is updated. -/
def setProp (v : JSVal) (key : String) (x : JSVal) : Except JSErr JSVal :=
  match v with
  | .undefined =>
      .error (.native ("TypeError: Cannot set properties of undefined (setting " ++ key ++ ")"))
  | .null =>
      .error (.native ("TypeError: Cannot set properties of null (setting " ++ key ++ ")"))
  | .obj fields cls => .ok (.obj (setField fields key x) cls)
  | other => .ok other

/-- The JS `Object.keys`: own enumerable keys in order.  Throws on null/undefined;
an array enumerates its index strings; other primitives have no own keys. -/
def jsKeys (v : JSVal) : Except JSErr (List String) :=
  match v with
  | .undefined => .error (.native "TypeError: Cannot convert undefined or null to object")
  | .null => .error (.native "TypeError: Cannot convert undefined or null to object")
  | .obj fields _ => .ok (fields.map Prod.fst)
  | .arr a => .ok ((List.range a.length).map toString)
  | _ => .ok []

/-- JS `v instanceof C` where `C` is the function (class) named `nm`:
true when `nm` occurs in the recorded class-name chain of the value. -/
def jsInstanceOfFn (v : JSVal) (nm : String) : Bool :=
  match v with
  | .obj _ cls => cls.contains nm
  | _ => false

/-- The JS `customMessage || defaultMessage` idiom: the custom message is
used unless it is absent (null) or empty (falsy). -/
def jsOr (customMessage : Option String) (dflt : String) : String :=
  match customMessage with
  | some m => if m == "" then dflt else m
  | none => dflt

/-- The default message of `Typso.checkType`:
`TypeError: Expected ${type} but received ${typeof variable}`. -/
def mismatchMsg (ty v : JSVal) : String :=
  "TypeError: Expected " ++ jsToString ty ++ " but received " ++ jsTypeof v

/-- The mutable static configuration of the `Typso` class, together with the
trace of messages written by `console.warn`. -/
structure TState where
  isStrict : Bool
  logWarnings : Bool
  log : List String
deriving DecidableEq

/-- The state at module load: `isStrict = true`, `logWarnings = false`. -/
def initState : TState :=
  ⟨true, false, []⟩

/-- Append one warning to the log, keeping the flags. -/
def pushLog (m : String) (s : TState) : TState :=
  ⟨s.isStrict, s.logWarnings, s.log ++ [m]⟩

/-- Append a batch of warnings to the log, keeping the flags. -/
def pushLogs (ms : List String) (s : TState) : TState :=
  ⟨s.isStrict, s.logWarnings, s.log ++ ms⟩

/-- Replace the strict flag. -/
def setStrict (b : Bool) (s : TState) : TState :=
  ⟨b, s.logWarnings, s.log⟩

/-- Replace the warn-only flag. -/
def setWarn (b : Bool) (s : TState) : TState :=
  ⟨s.isStrict, b, s.log⟩

namespace Typso

/-- Model of `Typso._throwError`: warn-only mode logs the message and returns
normally; otherwise the message is raised as an Error. -/
def _throwError (message : String) (s : TState) : TState × Except JSErr Unit :=
  if s.logWarnings then (pushLog message s, .ok ()) else (s, .error (.thrown message))

/-- Model of `Typso.checkType(variable, type, customMessage)`. -/
def checkType (v ty : JSVal) (customMessage : Option String) (s : TState) :
    TState × Except JSErr Unit :=
  if !(strictEqStr ty (jsTypeof v)) then
    _throwError (jsOr customMessage (mismatchMsg ty v)) s
  else (s, .ok ())

/-- Model of `Typso.checkInstance(variable, instance, customMessage)`; an
`instanceof`
with a non-callable right-hand side is a native TypeError. -/
def checkInstance (v inst : JSVal) (customMessage : Option String) (s : TState) :
    TState × Except JSErr Unit :=
  match inst with
  | .fn _ nm =>
      if !(jsInstanceOfFn v nm) then
        _throwError (jsOr customMessage ("TypeError: Expected instance of " ++ nm)) s
      else (s, .ok ())
  | _ => (s, .error (.native "TypeError: Right-hand side of instanceof is not callable"))

/-- The `variable.forEach((item) => this.checkType(item, elementType,
customMessage))` loop of `Typso.checkArray`: elements in order, stopping when
the callback raises. -/
def forEachCheck (items : List JSVal) (elementType : JSVal) (customMessage : Option String)
    (s : TState) : TState × Except JSErr Unit :=
  match items with
  | [] => (s, .ok ())
  | item :: rest =>
      match checkType item elementType customMessage s with
      | (s1, .ok _) => forEachCheck rest elementType customMessage s1
      | (s1, .error e) => (s1, .error e)

/-- Model of `Typso.checkArray(variable, elementType, customMessage)`.  When the
array test fails but `_throwError` only warned, control continues into
`variable.forEach`, which on a non-array is a native TypeError. -/
def checkArray (v elementType : JSVal) (customMessage : Option String) (s : TState) :
    TState × Except JSErr Unit :=
  match (if !(isArray v) then _throwError "TypeError: Expected an array" s else (s, .ok ())) with
  | (s1, .error e) => (s1, .error e)
  | (s1, .ok _) =>
      match v with
      | .arr items => forEachCheck items elementType customMessage s1
      | _ => (s1, .error (.native "TypeError: variable.forEach is not a function"))

/-- Model of `Typso.checkUnion(variable, types, customMessage)`. -/
def checkUnion (v types : JSVal) (customMessage : Option String) (s : TState) :
    TState × Except JSErr Unit :=
  match types with
  | .arr ts =>
      if !(ts.any (fun t => strictEqStr t (jsTypeof v))) then
        _throwError
          (jsOr customMessage
            ("TypeError: Expected one of [" ++
              String.intercalate ", " (ts.map jsToString) ++
              "] but received " ++ jsTypeof v)) s
      else (s, .ok ())
  | _ => (s, .error (.native "TypeError: types.includes is not a function"))

/-- Model of `Typso.checkCustom(variable, validationFunc, customMessage)`.
Calling a
non-function is a native TypeError. -/
def checkCustom (v validationFunc : JSVal) (customMessage : Option String) (s : TState) :
    TState × Except JSErr Unit :=
  match validationFunc with
  | .fn p _ =>
      if !(jsTruthy (applyPred p v)) then
        _throwError (jsOr customMessage "ValidationError: Custom validation failed") s
      else (s, .ok ())
  | _ => (s, .error (.native "TypeError: validationFunc is not a function"))

/-- Model of `Typso._checkSchemaField(value, expectedType)`: structural dispatch on
the descriptor — string, then two-element array marked "array", then
function (always a predicate), then instance check. -/
def _checkSchemaField (value expectedType : JSVal) (s : TState) :
    TState × Except JSErr Unit :=
  if jsTypeof expectedType == "string" then
    checkType value expectedType none s
  else if isArray expectedType && strictEqStr (getIndex expectedType 0) "array" then
    checkArray value (getIndex expectedType 1) none s
  else if jsTypeof expectedType == "function" then
    checkCustom value expectedType none s
  else
    checkInstance value expectedType none s

/-- The `Object.keys(schema).forEach(...)` loop of `Typso.checkObject`:
reads `schema[key]` then `variable[key]` then dispatches, stopping when a
step raises. -/
def forEachField (keys : List String) (v schema : JSVal) (s : TState) :
    TState × Except JSErr Unit :=
  match keys with
  | [] => (s, .ok ())
  | key :: rest =>
      match getProp schema key with
      | .error e => (s, .error e)
      | .ok expectedType =>
          match getProp v key with
          | .error e => (s, .error e)
          | .ok value =>
              match _checkSchemaField value expectedType s with
              | (s1, .ok _) => forEachField rest v schema s1
              | (s1, .error e) => (s1, .error e)

/-- Model of `Typso.checkObject(variable, schema)`.  The guard is
`typeof variable` not being the string "object", or `Array.isArray(variable)`;
note null passes
it, since `typeof null` is "object". -/
def checkObject (v schema : JSVal) (s : TState) : TState × Except JSErr Unit :=
  match (if (jsTypeof v != "object") || isArray v then
           _throwError "TypeError: Expected an object" s
         else (s, .ok ())) with
  | (s1, .error e) => (s1, .error e)
  | (s1, .ok _) =>
      match jsKeys schema with
      | .error e => (s1, .error e)
      | .ok keys => forEachField keys v schema s1

/-- Model of `Typso.checkDate(variable)`. -/
def checkDate (v : JSVal) (s : TState) : TState × Except JSErr Unit :=
  if !(jsInstanceOfFn v "Date") then
    _throwError "TypeError: Expected a Date" s
  else (s, .ok ())

/-- Model of `Typso.checkBoolean(variable)`. -/
def checkBoolean (v : JSVal) (s : TState) : TState × Except JSErr Unit :=
  checkType v (.str "boolean") none s

/-- Model of `Typso.checkNotNaN(variable)` (`Number.isNaN` is true only for NaN). -/
def checkNotNaN (v : JSVal) (s : TState) : TState × Except JSErr Unit :=
  if (match v with | .nan => true | _ => false) then
    _throwError "TypeError: Value should not be NaN" s
  else (s, .ok ())

/-- Model of `Typso.enforceStrictMode(strict = true)`; `none` models a call with no
argument, which uses the default. -/
def enforceStrictMode (strict : Option Bool) (s : TState) : TState :=
  setStrict (strict.getD true) s

/-- Model of `Typso.enableWarnings(enable = false)`; `none` models a call with no
argument, which uses the default. -/
def enableWarnings (enable : Option Bool) (s : TState) : TState :=
  setWarn (enable.getD false) s

/-- Model of `Typso.checkRange(value, min, max)`. -/
def checkRange (value mn mx : JSVal) (s : TState) : TState × Except JSErr Unit :=
  if jsLt value mn || jsLt mx value then
    _throwError
      ("RangeError: Value should be between " ++ jsToString mn ++ " and " ++ jsToString mx) s
  else (s, .ok ())

/-- Model of `Typso.checkLength(value, minLength, maxLength)`: reads
`value.length` (a native TypeError on null/undefined) and compares with JS
`<` and `>`, so a missing length (undefined) makes both comparisons false. -/
def checkLength (value minLength maxLength : JSVal) (s : TState) :
    TState × Except JSErr Unit :=
  match getProp value "length" with
  | .error e => (s, .error e)
  | .ok len =>
      if jsLt len minLength || jsLt maxLength len then
        _throwError
          ("LengthError: Length should be between " ++
            jsToString minLength ++ " and " ++ jsToString maxLength) s
      else (s, .ok ())

end Typso

/-- The `key :: rest` body of `normalize`: `schema[key].default` is read
first, then `data[key]` is compared with undefined, and the default is
assigned only when the slot is undefined and the default is not. -/
def normalizeKeys : List String → JSVal → JSVal → Except JSErr JSVal
  | [], _, data => .ok data
  | key :: rest, schema, data =>
      match getProp schema key with
      | .error e => .error e
      | .ok desc =>
          match getProp desc "default" with
          | .error e => .error e
          | .ok defaultValue =>
              match getProp data key with
              | .error e => .error e
              | .ok cur =>
                  if isUndef cur && !(isUndef defaultValue) then
                    match setProp data key defaultValue with
                    | .error e => .error e
                    | .ok data2 => normalizeKeys rest schema data2
                  else normalizeKeys rest schema data

/-- The function `normalize(schema, data)`: fill the `default` of each schema
key into `data`
where `data[key]` is undefined; returns the (mutated) data. -/
def normalize (schema data : JSVal) : Except JSErr JSVal :=
  match jsKeys schema with
  | .error e => .error e
  | .ok keys => normalizeKeys keys schema data

section Lemmas

theorem throwRaise (m : String) (s : TState) (h : s.logWarnings = false) :
    Typso._throwError m s = (s, .error (.thrown m)) := by
  simp [Typso._throwError, h]

theorem throwWarn (m : String) (s : TState) (h : s.logWarnings = true) :
    Typso._throwError m s = (pushLog m s, .ok ()) := by
  simp [Typso._throwError, h]

theorem checkType_default (v ty : JSVal) (cm : Option String) (s : TState)
    (h : s.logWarnings = false) :
    Typso.checkType v ty cm s =
      (if strictEqStr ty (jsTypeof v) then (s, .ok ())
       else (s, .error (.thrown (jsOr cm (mismatchMsg ty v))))) := by
  unfold Typso.checkType
  cases hx : strictEqStr ty (jsTypeof v) <;> simp [hx, throwRaise _ _ h]

theorem checkType_warn (v ty : JSVal) (cm : Option String) (s : TState)
    (h : s.logWarnings = true) :
    Typso.checkType v ty cm s =
      (if strictEqStr ty (jsTypeof v) then (s, .ok ())
       else (pushLog (jsOr cm (mismatchMsg ty v)) s, .ok ())) := by
  unfold Typso.checkType
  cases hx : strictEqStr ty (jsTypeof v) <;> simp [hx, throwWarn _ _ h]

theorem sp_checkType (v ty : JSVal) (cm : Option String) (s : TState)
    (h : s.logWarnings = false) :
    (Typso.checkType v ty cm s).1 = s := by
  rw [checkType_default v ty cm s h]
  cases strictEqStr ty (jsTypeof v) <;> simp

theorem sp_checkInstance (v inst : JSVal) (cm : Option String) (s : TState)
    (h : s.logWarnings = false) :
    (Typso.checkInstance v inst cm s).1 = s := by
  unfold Typso.checkInstance
  cases inst <;> simp [Typso._throwError, h]
  split <;> rfl

theorem sp_checkCustom (v f : JSVal) (cm : Option String) (s : TState)
    (h : s.logWarnings = false) :
    (Typso.checkCustom v f cm s).1 = s := by
  unfold Typso.checkCustom
  cases f <;> simp [Typso._throwError, h]
  split <;> rfl

theorem sp_forEachCheck (items : List JSVal) (ty : JSVal) (cm : Option String) (s : TState)
    (h : s.logWarnings = false) :
    (Typso.forEachCheck items ty cm s).1 = s := by
  induction items with
  | nil => rfl
  | cons item rest ih =>
      unfold Typso.forEachCheck
      rcases hr : Typso.checkType item ty cm s with ⟨s1, r2⟩
      have hs1 : s1 = s := by
        have := sp_checkType item ty cm s h
        rw [hr] at this
        exact this
      cases r2 with
      | ok u => simp [hs1, ih]
      | error e => simp [hs1]

theorem sp_checkArray (v ty : JSVal) (cm : Option String) (s : TState)
    (h : s.logWarnings = false) :
    (Typso.checkArray v ty cm s).1 = s := by
  unfold Typso.checkArray
  cases hx : isArray v <;> simp [hx, Typso._throwError, h]
  cases v <;> simp [sp_forEachCheck _ _ _ _ h]

theorem sp_checkSchemaField (value d : JSVal) (s : TState)
    (h : s.logWarnings = false) :
    (Typso._checkSchemaField value d s).1 = s := by
  unfold Typso._checkSchemaField
  split
  · exact sp_checkType _ _ _ _ h
  · split
    · exact sp_checkArray _ _ _ _ h
    · split
      · exact sp_checkCustom _ _ _ _ h
      · exact sp_checkInstance _ _ _ _ h

end Lemmas

section ClaimC6

/-- Claim C6: `checkType` succeeds exactly when `typeof v` equals the kind
name `k`, and otherwise (default mode) raises the mismatch error whose
default message embeds both the expected and the actual kind names. -/
theorem checkType_spec (v : JSVal) (k : String) (s : TState)
    (h : s.logWarnings = false) :
    ((Typso.checkType v (.str k) none s).2 = .ok () ↔ jsTypeof v = k) ∧
    (jsTypeof v ≠ k →
      Typso.checkType v (.str k) none s =
        (s, .error (.thrown ("TypeError: Expected " ++ k ++ " but received " ++ jsTypeof v)))) := by
  rw [checkType_default v (.str k) none s h]
  constructor
  · cases hx : strictEqStr (.str k) (jsTypeof v) <;>
      simp [strictEqStr] at hx <;> simp [strictEqStr, hx]
    intro hk
    exact absurd hk.symm hx
  · intro hne
    have hx : strictEqStr (.str k) (jsTypeof v) = false := by
      simp [strictEqStr]
      exact fun hk => absurd hk.symm hne
    simp [hx, jsOr, mismatchMsg, jsToString]

/-- Witness for C6 at a concrete failing input. -/
theorem checkType_spec_witness :
    ((Typso.checkType (.num 0) (.str "string") none initState).2 = .ok () ↔
        jsTypeof (.num 0) = "string") ∧
    (jsTypeof (.num 0) ≠ "string" →
      Typso.checkType (.num 0) (.str "string") none initState =
        (initState,
         .error (.thrown ("TypeError: Expected " ++ "string" ++ " but received " ++
           jsTypeof (.num 0))))) :=
  checkType_spec (.num 0) "string" initState rfl

end ClaimC6

section ClaimC10

/-- Claim C10: calling `enableWarnings` with no argument uses the default
`enable = false`, so from every prior state it disables warn-only mode. -/
theorem enableWarnings_no_argument (s : TState) :
    Typso.enableWarnings none s = setWarn false s ∧
    (Typso.enableWarnings none s).logWarnings = false :=
  ⟨rfl, rfl⟩

end ClaimC10

section ClaimC5

/-- Claim C5: the structural dispatch of `_checkSchemaField` — a string
descriptor is a primitive-kind check; an array whose head is the literal
"array" is an element-kind check over its second entry; a function
descriptor is always a predicate (never an instance check); anything else
is an instance check. -/
theorem checkSchemaField_dispatch (v : JSVal) (s : TState) :
    (∀ t : String, Typso._checkSchemaField v (.str t) s = Typso.checkType v (.str t) none s) ∧
    (∀ rest : List JSVal,
      Typso._checkSchemaField v (.arr (.str "array" :: rest)) s =
        Typso.checkArray v (getIndex (.arr (.str "array" :: rest)) 1) none s) ∧
    (∀ (p : FnCode) (nm : String),
      Typso._checkSchemaField v (.fn p nm) s = Typso.checkCustom v (.fn p nm) none s) ∧
    (∀ d : JSVal, jsTypeof d ≠ "string" → jsTypeof d ≠ "function" →
      (isArray d = false ∨ strictEqStr (getIndex d 0) "array" = false) →
      Typso._checkSchemaField v d s = Typso.checkInstance v d none s) := by
  refine ⟨fun t => rfl, fun rest => rfl, fun p nm => rfl, fun d h1 h2 h3 => ?_⟩
  unfold Typso._checkSchemaField
  have hs : (jsTypeof d == "string") = false := by
    cases hd : jsTypeof d == "string"
    · rfl
    · exact absurd (by simpa using hd) h1
  have hf : (jsTypeof d == "function") = false := by
    cases hd : jsTypeof d == "function"
    · rfl
    · exact absurd (by simpa using hd) h2
  have ha : (isArray d && strictEqStr (getIndex d 0) "array") = false := by
    rcases h3 with h3 | h3 <;> simp [h3]
  simp [hs, hf, ha]

/-- Witness for C5, instance branch, at a concrete non-string, non-array,
non-function descriptor. -/
theorem checkSchemaField_dispatch_witness :
    Typso._checkSchemaField .null (.obj [] []) initState =
      Typso.checkInstance .null (.obj [] []) none initState :=
  (checkSchemaField_dispatch .null initState).2.2.2 (.obj [] [])
    (by simp [jsTypeof]) (by simp [jsTypeof]) (Or.inl (by simp [isArray]))

end ClaimC5

section ArrayLemmas

theorem pushLogs_nil (s : TState) : pushLogs [] s = s := by
  simp [pushLogs]

theorem pushLogs_cons (m : String) (ms : List String) (s : TState) :
    pushLogs ms (pushLog m s) = pushLogs (m :: ms) s := by
  simp [pushLog, pushLogs]

theorem pushLog_logWarnings (m : String) (s : TState) :
    (pushLog m s).logWarnings = s.logWarnings := rfl

theorem strictEqStr_str_true (k t : String) (h : t = k) :
    strictEqStr (.str k) t = true := by
  simp [strictEqStr, h]

theorem strictEqStr_str_false (k t : String) (h : t ≠ k) :
    strictEqStr (.str k) t = false := by
  simp [strictEqStr]
  exact fun hk => absurd hk.symm h

theorem forEachCheck_ok_iff (elems : List JSVal) (k : String) (s : TState)
    (h : s.logWarnings = false) :
    ((Typso.forEachCheck elems (.str k) none s).2 = .ok () ↔ ∀ e ∈ elems, jsTypeof e = k) := by
  induction elems with
  | nil => simp [Typso.forEachCheck]
  | cons e rest ih =>
      unfold Typso.forEachCheck
      rw [checkType_default _ _ _ _ h]
      by_cases hk : jsTypeof e = k
      · rw [strictEqStr_str_true k _ hk]
        simp [ih, hk]
      · rw [strictEqStr_str_false k _ hk]
        simp [hk]

theorem forEachCheck_firstFail (pre : List JSVal) (x : JSVal) (post : List JSVal)
    (k : String) (s : TState) (h : s.logWarnings = false)
    (hpre : ∀ e ∈ pre, jsTypeof e = k) (hx : jsTypeof x ≠ k) :
    Typso.forEachCheck (pre ++ x :: post) (.str k) none s =
      (s, .error (.thrown (mismatchMsg (.str k) x))) := by
  induction pre with
  | nil =>
      rw [List.nil_append]
      unfold Typso.forEachCheck
      rw [checkType_default _ _ _ _ h]
      rw [strictEqStr_str_false k _ hx]
      simp [jsOr]
  | cons e pre ih =>
      rw [List.cons_append]
      unfold Typso.forEachCheck
      rw [checkType_default _ _ _ _ h]
      rw [strictEqStr_str_true k _ (hpre e (by simp))]
      simpa using ih (fun e' he' => hpre e' (by simp [he']))

theorem forEachCheck_warn (elems : List JSVal) (k : String) (s : TState)
    (h : s.logWarnings = true) :
    Typso.forEachCheck elems (.str k) none s =
      (pushLogs ((elems.filter (fun e => jsTypeof e != k)).map
          (fun e => mismatchMsg (.str k) e)) s, .ok ()) := by
  induction elems generalizing s with
  | nil => simp [Typso.forEachCheck, pushLogs_nil]
  | cons e rest ih =>
      unfold Typso.forEachCheck
      rw [checkType_warn _ _ _ _ h]
      by_cases hk : jsTypeof e = k
      · rw [strictEqStr_str_true k _ hk]
        simp [List.filter_cons, hk, ih s h]
      · rw [strictEqStr_str_false k _ hk]
        have h2 : (pushLog (mismatchMsg (.str k) e) s).logWarnings = true := h
        simp [List.filter_cons, hk, ih _ h2, pushLogs_cons, jsOr]

end ArrayLemmas

section ClaimC4

/-- Claim C4: `checkArray` raises NotAnArray on a non-array (default mode);
on an array it checks the primitive kind of each element in order, succeeding iff
every element matches, short-circuiting at the first failing element under
default mode, while under warn-only mode every element is visited and each
failing element contributes its own log entry, in order. -/
theorem checkArray_spec (k : String) (s : TState) :
    (∀ v, isArray v = false → s.logWarnings = false →
      Typso.checkArray v (.str k) none s =
        (s, .error (.thrown "TypeError: Expected an array"))) ∧
    (∀ elems, s.logWarnings = false →
      ((Typso.checkArray (.arr elems) (.str k) none s).2 = .ok () ↔
        ∀ e ∈ elems, jsTypeof e = k)) ∧
    (∀ pre x post, s.logWarnings = false → (∀ e ∈ pre, jsTypeof e = k) → jsTypeof x ≠ k →
      Typso.checkArray (.arr (pre ++ x :: post)) (.str k) none s =
        (s, .error (.thrown ("TypeError: Expected " ++ k ++ " but received " ++ jsTypeof x)))) ∧
    (∀ elems, s.logWarnings = true →
      Typso.checkArray (.arr elems) (.str k) none s =
        (pushLogs ((elems.filter (fun e => jsTypeof e != k)).map
            (fun e => "TypeError: Expected " ++ k ++ " but received " ++ jsTypeof e)) s,
         .ok ())) := by
  have hmsg : ∀ e : JSVal, mismatchMsg (.str k) e =
      "TypeError: Expected " ++ k ++ " but received " ++ jsTypeof e := by
    intro e
    simp [mismatchMsg, jsToString]
  refine ⟨fun v hv h => ?_, fun elems h => ?_, fun pre x post h hpre hx => ?_,
    fun elems h => ?_⟩
  · unfold Typso.checkArray
    rw [hv]
    simp [throwRaise _ _ h]
  · unfold Typso.checkArray
    simp [isArray]
    exact forEachCheck_ok_iff elems k s h
  · unfold Typso.checkArray
    simp [isArray]
    rw [forEachCheck_firstFail pre x post k s h hpre hx, hmsg x]
  · unfold Typso.checkArray
    simp [isArray]
    rw [forEachCheck_warn elems k s h]
    simp [hmsg]

/-- Witness for C4 at concrete inputs: a non-array raises NotAnArray, and a
mixed array fails at its first non-number element. -/
theorem checkArray_spec_witness :
    (isArray (.bool true) = false → initState.logWarnings = false →
      Typso.checkArray (.bool true) (.str "number") none initState =
        (initState, .error (.thrown "TypeError: Expected an array"))) ∧
    (initState.logWarnings = false →
      ((Typso.checkArray (.arr [.num 1, .str "a"]) (.str "number") none initState).2 = .ok () ↔
        ∀ e ∈ [JSVal.num 1, JSVal.str "a"], jsTypeof e = "number")) :=
  ⟨fun hv h => (checkArray_spec "number" initState).1 (.bool true) hv h,
   fun h => (checkArray_spec "number" initState).2.1 [.num 1, .str "a"] h⟩

end ClaimC4

section ClaimC1

/-- Claim C1 counterexample: with warn-only mode enabled, `checkArray` on a
failing (non-array) input logs the failure message but does not return
normally: after `_throwError` merely warns, control reaches
`variable.forEach`, which on a non-array raises a native TypeError.  The
claim asserts every failing check returns normally under warn-only mode. -/
theorem warnOnly_counterexample :
    Typso.checkArray (.num 1) (.str "number") none ⟨true, true, []⟩ =
      (⟨true, true, ["TypeError: Expected an array"]⟩,
       .error (.native "TypeError: variable.forEach is not a function")) := rfl

/-- Claim C1 (amended): for a failing `checkType` (the failure path that
does nothing further with the value) warn-only mode logs the message and
returns normally while default mode raises it, the mode is read at call
time (so toggling `enableWarnings` affects only later calls), but
`checkArray` on a non-array input under warn-only mode logs the failure and
then raises a native TypeError from `variable.forEach`. -/
theorem warnOnly_behavior (v ty : JSVal) (cm : Option String) (s : TState)
    (hfail : strictEqStr ty (jsTypeof v) = false) :
    (s.logWarnings = true →
      Typso.checkType v ty cm s = (pushLog (jsOr cm (mismatchMsg ty v)) s, .ok ())) ∧
    (s.logWarnings = false →
      Typso.checkType v ty cm s = (s, .error (.thrown (jsOr cm (mismatchMsg ty v))))) ∧
    (∀ b : Bool, Typso.enableWarnings (some b) s = setWarn b s) ∧
    (∀ w : JSVal, isArray w = false → s.logWarnings = true →
      Typso.checkArray w ty cm s =
        (pushLog "TypeError: Expected an array" s,
         .error (.native "TypeError: variable.forEach is not a function"))) := by
  refine ⟨fun h => ?_, fun h => ?_, fun b => rfl, fun w hw h => ?_⟩
  · rw [checkType_warn _ _ _ _ h, hfail]
    simp
  · rw [checkType_default _ _ _ _ h, hfail]
    simp
  · unfold Typso.checkArray
    rw [hw]
    simp [throwWarn _ _ h]
    cases w <;> simp [isArray] at hw ⊢

/-- Witness for C1 (amended) at a failing input in both modes. -/
theorem warnOnly_behavior_witness :
    ((⟨true, true, []⟩ : TState).logWarnings = true →
      Typso.checkType (.num 1) (.str "string") none ⟨true, true, []⟩ =
        (pushLog (jsOr none (mismatchMsg (.str "string") (.num 1))) ⟨true, true, []⟩,
         .ok ())) ∧
    ((⟨true, true, []⟩ : TState).logWarnings = false →
      Typso.checkType (.num 1) (.str "string") none ⟨true, true, []⟩ =
        (⟨true, true, []⟩,
         .error (.thrown (jsOr none (mismatchMsg (.str "string") (.num 1)))))) ∧
    (∀ b : Bool, Typso.enableWarnings (some b) ⟨true, true, []⟩ = setWarn b ⟨true, true, []⟩) ∧
    (∀ w : JSVal, isArray w = false → (⟨true, true, []⟩ : TState).logWarnings = true →
      Typso.checkArray w (.str "string") none ⟨true, true, []⟩ =
        (pushLog "TypeError: Expected an array" ⟨true, true, []⟩,
         .error (.native "TypeError: variable.forEach is not a function"))) :=
  warnOnly_behavior (.num 1) (.str "string") none ⟨true, true, []⟩ rfl

end ClaimC1

section ObjectLemmas

theorem forEachField_ok_iff (keys : List String) (fields sfields : List (String × JSVal))
    (cls scls : List String) (s : TState) (h : s.logWarnings = false) :
    ((Typso.forEachField keys (.obj fields cls) (.obj sfields scls) s).2 = .ok () ↔
      ∀ key ∈ keys,
        (Typso._checkSchemaField (fieldVal fields key) (fieldVal sfields key) s).2 =
          .ok ()) := by
  induction keys with
  | nil => simp [Typso.forEachField]
  | cons key rest ih =>
      unfold Typso.forEachField
      simp only [getProp]
      rcases hr : Typso._checkSchemaField (fieldVal fields key) (fieldVal sfields key) s
        with ⟨s1, r2⟩
      have hs1 : s1 = s := by
        have := sp_checkSchemaField (fieldVal fields key) (fieldVal sfields key) s h
        rw [hr] at this
        exact this
      cases r2 with
      | ok u => simp [hr, hs1, ih]
      | error e => simp [hr]

end ObjectLemmas

section ClaimC2

/-- Claim C2: for a (non-null, non-array) object value and an object
schema, `checkObject` succeeds in default mode exactly when, for every key
declared in the schema, the field of the value at that key passes the check
dispatched from the schema descriptor; keys of the value that the schema
does not declare never appear in the condition, so they can never cause a
failure. -/
theorem checkObject_succeeds_iff (fields sfields : List (String × JSVal))
    (cls scls : List String) (s : TState) (h : s.logWarnings = false) :
    ((Typso.checkObject (.obj fields cls) (.obj sfields scls) s).2 = .ok () ↔
      ∀ key ∈ sfields.map Prod.fst,
        (Typso._checkSchemaField (fieldVal fields key) (fieldVal sfields key) s).2 =
          .ok ()) := by
  unfold Typso.checkObject
  simp only [jsTypeof, isArray, jsKeys, bne_self_eq_false, Bool.or_self, Bool.false_or,
    if_neg, Bool.false_eq_true, not_false_eq_true, if_false]
  exact forEachField_ok_iff _ _ _ _ _ _ h

/-- Witness for C2 at a concrete object and schema. -/
theorem checkObject_succeeds_iff_witness :
    ((Typso.checkObject (.obj [("name", .str "Alice")] [])
        (.obj [("name", .str "string"), ("age", .str "number")] []) initState).2 = .ok () ↔
      ∀ key ∈ [("name", JSVal.str "string"), ("age", JSVal.str "number")].map Prod.fst,
        (Typso._checkSchemaField (fieldVal [("name", .str "Alice")] key)
          (fieldVal [("name", .str "string"), ("age", .str "number")] key) initState).2 =
            .ok ()) :=
  checkObject_succeeds_iff [("name", .str "Alice")]
    [("name", .str "string"), ("age", .str "number")] [] [] initState rfl

end ClaimC2

section ClaimC3

/-- Claim C3 counterexample: `checkObject` does not raise NotAnObject on
null — `typeof null` is "object", so null passes the guard, and with an
empty schema the call returns normally where the claim requires a raise. -/
theorem checkObject_null_counterexample :
    Typso.checkObject .null (.obj [] []) initState = (initState, .ok ()) := rfl

/-- Claim C3 (amended): in default mode `checkObject` raises NotAnObject
exactly for arrays and for values whose `typeof` is not "object" (numbers,
strings, booleans, functions, undefined), before reading any schema field;
null slips through the guard: with an empty schema the call succeeds, and
with a non-empty schema the first field lookup raises a native
property-access TypeError, not NotAnObject. -/
theorem checkObject_notAnObject (v schema : JSVal) (s : TState)
    (h : s.logWarnings = false) :
    (jsTypeof v ≠ "object" ∨ isArray v = true →
      Typso.checkObject v schema s =
        (s, .error (.thrown "TypeError: Expected an object"))) ∧
    (∀ scls : List String, Typso.checkObject .null (.obj [] scls) s = (s, .ok ())) ∧
    (∀ (key : String) (d : JSVal) (rest : List (String × JSVal)) (scls : List String),
      Typso.checkObject .null (.obj ((key, d) :: rest) scls) s =
        (s, .error (.native
          ("TypeError: Cannot read properties of null (reading " ++ key ++ ")")))) := by
  refine ⟨fun hv => ?_, fun scls => rfl, fun key d rest scls => ?_⟩
  · unfold Typso.checkObject
    have hc : ((jsTypeof v != "object") || isArray v) = true := by
      rcases hv with hv | hv
      · simp [bne_iff_ne, hv]
      · simp [hv]
    rw [hc]
    simp [throwRaise _ _ h]
  · unfold Typso.checkObject
    simp [jsTypeof, isArray, jsKeys, Typso.forEachField, getProp]

/-- Witness for C3 (amended): a number raises NotAnObject. -/
theorem checkObject_notAnObject_witness :
    Typso.checkObject (.num 5) (.obj [] []) initState =
      (initState, .error (.thrown "TypeError: Expected an object")) :=
  (checkObject_notAnObject (.num 5) (.obj [] []) initState rfl).1
    (Or.inl (by decide))

end ClaimC3

section ClaimC7

/-- Claim C7 counterexample: a boolean exposes no length measure, yet
`checkLength` on it returns normally — `undefined < min` and
`max < undefined` are both false in JS — where the claim requires a raise. -/
theorem checkLength_counterexample :
    Typso.checkLength (.bool true) (.num 1) (.num 10) initState =
      (initState, .ok ()) := rfl

/-- Claim C7 (amended): for strings and arrays `checkLength` fails with
LengthViolation exactly when the length lies outside the inclusive interval,
and succeeds otherwise; reading `length` off null raises a native
TypeError; but a value without a numeric length (booleans, numbers) makes
both comparisons false, so the call succeeds rather than raising. -/
theorem checkLength_num (value : JSVal) (L mn mx : Int) (s : TState)
    (h : s.logWarnings = false) (hg : getProp value "length" = .ok (.num L)) :
    Typso.checkLength value (.num mn) (.num mx) s =
      (if L < mn ∨ mx < L then
        (s, .error (.thrown ("LengthError: Length should be between " ++
          toString mn ++ " and " ++ toString mx)))
       else (s, .ok ())) := by
  unfold Typso.checkLength
  rw [hg]
  have hnum : ∀ x y : Int, jsLt (.num x) (.num y) = decide (x < y) := by
    intro x y
    simp [jsLt, toNumber]
  simp only [hnum, Bool.or_eq_true, decide_eq_true_eq, throwRaise _ _ h, jsToString]

theorem checkLength_spec (mn mx : Int) (s : TState) (h : s.logWarnings = false) :
    (∀ str : String,
      ((Typso.checkLength (.str str) (.num mn) (.num mx) s).2 = .ok () ↔
        mn ≤ (str.length : Int) ∧ (str.length : Int) ≤ mx)) ∧
    (∀ a : List JSVal,
      ((Typso.checkLength (.arr a) (.num mn) (.num mx) s).2 = .ok () ↔
        mn ≤ (a.length : Int) ∧ (a.length : Int) ≤ mx)) ∧
    (∀ str : String, ¬(mn ≤ (str.length : Int) ∧ (str.length : Int) ≤ mx) →
      Typso.checkLength (.str str) (.num mn) (.num mx) s =
        (s, .error (.thrown ("LengthError: Length should be between " ++
          toString mn ++ " and " ++ toString mx)))) ∧
    ((Typso.checkLength .null (.num mn) (.num mx) s).2 =
      .error (.native "TypeError: Cannot read properties of null (reading length)")) ∧
    (∀ b : Bool, Typso.checkLength (.bool b) (.num mn) (.num mx) s = (s, .ok ())) ∧
    (∀ n : Int, Typso.checkLength (.num n) (.num mn) (.num mx) s = (s, .ok ())) := by
  have hgs : ∀ str : String, getProp (.str str) "length" = .ok (.num (str.length : Int)) := by
    intro str
    simp [getProp]
  have hga : ∀ a : List JSVal, getProp (.arr a) "length" = .ok (.num (a.length : Int)) := by
    intro a
    simp [getProp]
  refine ⟨fun str => ?_, fun a => ?_, fun str hout => ?_, rfl, fun b => ?_, fun n => ?_⟩
  · rw [checkLength_num _ _ mn mx s h (hgs str)]
    split <;> next h1 => (simp; omega)
  · rw [checkLength_num _ _ mn mx s h (hga a)]
    split <;> next h1 => (simp; omega)
  · rw [checkLength_num _ _ mn mx s h (hgs str), if_pos (by omega)]
  · unfold Typso.checkLength
    simp [getProp, jsLt, toNumber]
  · unfold Typso.checkLength
    simp [getProp, jsLt, toNumber]

/-- Witness for C7 (amended): a five-character string against bounds 1..3
raises LengthViolation. -/
theorem checkLength_spec_witness :
    Typso.checkLength (.str "hello") (.num 1) (.num 3) initState =
      (initState, .error (.thrown ("LengthError: Length should be between " ++
        toString (1 : Int) ++ " and " ++ toString (3 : Int)))) :=
  (checkLength_spec 1 3 initState rfl).2.2.1 "hello" (by decide)

end ClaimC7

section StrictLemmas

/-- A state-transforming operation that ignores the strict flag: flipping
`isStrict` before a call leaves the outcome unchanged — same result, same
log, same warn flag — with the flipped bit merely carried through. -/
def StrictIrrel (f : TState → TState × Except JSErr Unit) : Prop :=
  ∀ (b : Bool) (s : TState), f (setStrict b s) = (setStrict b (f s).1, (f s).2)

theorem si_throw (m : String) : StrictIrrel (Typso._throwError m) := by
  intro b s
  cases hlw : s.logWarnings <;>
    simp [Typso._throwError, hlw, setStrict, pushLog]

theorem si_checkType (v ty : JSVal) (cm : Option String) :
    StrictIrrel (Typso.checkType v ty cm) := by
  intro b s
  cases hx : strictEqStr ty (jsTypeof v) <;>
    cases hlw : s.logWarnings <;>
      simp [Typso.checkType, Typso._throwError, hx, hlw, setStrict, pushLog]

theorem si_checkInstance (v inst : JSVal) (cm : Option String) :
    StrictIrrel (Typso.checkInstance v inst cm) := by
  intro b s
  cases inst <;> try rfl
  case fn p nm =>
    cases hx : jsInstanceOfFn v nm <;>
      cases hlw : s.logWarnings <;>
        simp [Typso.checkInstance, Typso._throwError, hx, hlw, setStrict, pushLog]

theorem si_checkCustom (v f : JSVal) (cm : Option String) :
    StrictIrrel (Typso.checkCustom v f cm) := by
  intro b s
  cases f <;> try rfl
  case fn p nm =>
    cases hx : jsTruthy (applyPred p v) <;>
      cases hlw : s.logWarnings <;>
        simp [Typso.checkCustom, Typso._throwError, hx, hlw, setStrict, pushLog]

theorem si_forEachCheck (items : List JSVal) (ty : JSVal) (cm : Option String) :
    StrictIrrel (Typso.forEachCheck items ty cm) := by
  induction items with
  | nil => intro b s; rfl
  | cons e rest ih =>
      intro b s
      have h1 := si_checkType e ty cm b s
      rcases hr : Typso.checkType e ty cm s with ⟨s1, r2⟩
      rw [hr] at h1
      unfold Typso.forEachCheck
      rw [h1, hr]
      cases r2 with
      | ok u => exact ih b s1
      | error e2 => rfl

theorem si_checkArray (v ty : JSVal) (cm : Option String) :
    StrictIrrel (Typso.checkArray v ty cm) := by
  intro b s
  cases v <;>
    first
      | exact si_forEachCheck _ ty cm b s
      | (cases hlw : s.logWarnings <;>
          simp [Typso.checkArray, Typso._throwError, hlw, setStrict, pushLog, isArray])

theorem si_checkUnion (v types : JSVal) (cm : Option String) :
    StrictIrrel (Typso.checkUnion v types cm) := by
  intro b s
  cases types <;> try rfl
  case arr ts =>
    cases hx : ts.any (fun t => strictEqStr t (jsTypeof v)) <;>
      cases hlw : s.logWarnings <;>
        simp [Typso.checkUnion, Typso._throwError, hx, hlw, setStrict, pushLog]

theorem si_checkSchemaField (value d : JSVal) :
    StrictIrrel (Typso._checkSchemaField value d) := by
  intro b s
  unfold Typso._checkSchemaField
  split
  · exact si_checkType _ _ _ b s
  · split
    · exact si_checkArray _ _ _ b s
    · split
      · exact si_checkCustom _ _ _ b s
      · exact si_checkInstance _ _ _ b s

theorem si_forEachField (keys : List String) (v schema : JSVal) :
    StrictIrrel (Typso.forEachField keys v schema) := by
  induction keys with
  | nil => intro b s; rfl
  | cons key rest ih =>
      intro b s
      unfold Typso.forEachField
      cases hg : getProp schema key with
      | error e => rfl
      | ok ty =>
          cases hv : getProp v key with
          | error e => rfl
          | ok value =>
              dsimp only
              have h1 := si_checkSchemaField value ty b s
              rcases hr : Typso._checkSchemaField value ty s with ⟨s1, r2⟩
              rw [hr] at h1
              rw [h1]
              cases r2 with
              | ok u => exact ih b s1
              | error e2 => rfl

theorem si_checkObject (v schema : JSVal) : StrictIrrel (Typso.checkObject v schema) := by
  intro b s
  unfold Typso.checkObject
  cases hc : ((jsTypeof v != "object") || isArray v)
  · simp only [hc, Bool.false_eq_true, if_false]
    cases hk : jsKeys schema with
    | error e => rfl
    | ok keys => exact si_forEachField keys v schema b s
  · cases hlw : s.logWarnings
    · simp [hc, Typso._throwError, hlw, setStrict]
    · cases hk : jsKeys schema with
      | error e => simp [hc, Typso._throwError, hlw, hk, setStrict, pushLog]
      | ok keys =>
          have h1 := si_forEachField keys v schema b
            (pushLog "TypeError: Expected an object" s)
          simp only [setStrict, pushLog, hlw] at h1
          simp [hc, Typso._throwError, hlw, hk, setStrict, pushLog, h1]

theorem si_checkDate (v : JSVal) : StrictIrrel (Typso.checkDate v) := by
  intro b s
  cases hx : jsInstanceOfFn v "Date" <;>
    cases hlw : s.logWarnings <;>
      simp [Typso.checkDate, Typso._throwError, hx, hlw, setStrict, pushLog]

theorem si_checkBoolean (v : JSVal) : StrictIrrel (Typso.checkBoolean v) :=
  si_checkType v (.str "boolean") none

theorem si_checkNotNaN (v : JSVal) : StrictIrrel (Typso.checkNotNaN v) := by
  intro b s
  cases v <;>
    cases hlw : s.logWarnings <;>
      simp [Typso.checkNotNaN, Typso._throwError, hlw, setStrict, pushLog]

theorem si_checkRange (v mn mx : JSVal) : StrictIrrel (Typso.checkRange v mn mx) := by
  intro b s
  cases hx : (jsLt v mn || jsLt mx v) <;>
    cases hlw : s.logWarnings <;>
      simp [Typso.checkRange, Typso._throwError, hx, hlw, setStrict, pushLog]

theorem si_checkLength (v mn mx : JSVal) : StrictIrrel (Typso.checkLength v mn mx) := by
  intro b s
  cases hg : getProp v "length" with
  | error e => simp [Typso.checkLength, hg]
  | ok len =>
      cases hx : (jsLt len mn || jsLt mx len) <;>
        cases hlw : s.logWarnings <;>
          simp [Typso.checkLength, Typso._throwError, hg, hx, hlw, setStrict, pushLog]

end StrictLemmas

section ClaimC9

/-- Claim C9: no current check enforces the strict flag — for every check
operation, two runs differing only in `isStrict` have the same outcome:
same success or raised error, and the same logged warnings. -/
theorem strict_flag_irrelevant :
    (∀ v ty cm, StrictIrrel (Typso.checkType v ty cm)) ∧
    (∀ v inst cm, StrictIrrel (Typso.checkInstance v inst cm)) ∧
    (∀ v et cm, StrictIrrel (Typso.checkArray v et cm)) ∧
    (∀ v ts cm, StrictIrrel (Typso.checkUnion v ts cm)) ∧
    (∀ v schema, StrictIrrel (Typso.checkObject v schema)) ∧
    (∀ v, StrictIrrel (Typso.checkDate v)) ∧
    (∀ v, StrictIrrel (Typso.checkBoolean v)) ∧
    (∀ v f cm, StrictIrrel (Typso.checkCustom v f cm)) ∧
    (∀ v, StrictIrrel (Typso.checkNotNaN v)) ∧
    (∀ v mn mx, StrictIrrel (Typso.checkRange v mn mx)) ∧
    (∀ v mn mx, StrictIrrel (Typso.checkLength v mn mx)) ∧
    (∀ value d, StrictIrrel (Typso._checkSchemaField value d)) :=
  ⟨si_checkType, si_checkInstance, si_checkArray, si_checkUnion, si_checkObject,
   si_checkDate, si_checkBoolean, si_checkCustom, si_checkNotNaN, si_checkRange,
   si_checkLength, si_checkSchemaField⟩

end ClaimC9

section NormalizeLemmas

theorem fieldVal_setField (f : List (String × JSVal)) (k k' : String) (x : JSVal) :
    fieldVal (setField f k x) k' = if k' = k then x else fieldVal f k' := by
  induction f with
  | nil =>
      by_cases h : k' = k <;> simp [setField, fieldVal, h]
  | cons p rest ih =>
      rcases p with ⟨pk, pv⟩
      by_cases h1 : pk = k
      · by_cases h2 : k' = k <;> simp_all [setField, fieldVal]
      · by_cases h2 : k' = pk <;> by_cases h3 : k' = k <;>
          simp_all [setField, fieldVal]

theorem normalizeKeys_obj : ∀ (keys : List String) (schema : JSVal)
    (f : List (String × JSVal)) (c : List String) (d : JSVal),
    normalizeKeys keys schema (.obj f c) = .ok d → ∃ g, d = .obj g c := by
  intro keys
  induction keys with
  | nil =>
      intro schema f c d h
      unfold normalizeKeys at h
      exact ⟨f, (Except.ok.injEq _ _).mp h.symm⟩
  | cons key rest ih =>
      intro schema f c d h
      unfold normalizeKeys at h
      rcases hg : getProp schema key with e | desc
      · simp only [hg] at h
        simp at h
      · simp only [hg] at h
        rcases hd : getProp desc "default" with e | dv
        · simp only [hd] at h
          simp at h
        · simp only [hd] at h
          simp only [getProp] at h
          by_cases hcond : (isUndef (fieldVal f key) && !(isUndef dv)) = true
          · rw [if_pos hcond] at h
            simp only [setProp] at h
            exact ih schema (setField f key dv) c d h
          · rw [if_neg hcond] at h
            exact ih schema f c d h

theorem normalizeKeys_undef_mono : ∀ (keys : List String) (schema : JSVal)
    (f : List (String × JSVal)) (c : List String)
    (g : List (String × JSVal)) (c' : List String),
    normalizeKeys keys schema (.obj f c) = .ok (.obj g c') →
    ∀ k, isUndef (fieldVal g k) = true → isUndef (fieldVal f k) = true := by
  intro keys
  induction keys with
  | nil =>
      intro schema f c g c' h k hk
      unfold normalizeKeys at h
      injection h with h2
      injection h2 with hf hc
      rw [hf]
      exact hk
  | cons key rest ih =>
      intro schema f c g c' h k hk
      unfold normalizeKeys at h
      rcases hg : getProp schema key with e | desc
      · simp only [hg] at h
        simp at h
      · simp only [hg] at h
        rcases hd : getProp desc "default" with e | dv
        · simp only [hd] at h
          simp at h
        · simp only [hd] at h
          simp only [getProp] at h
          by_cases hcond : (isUndef (fieldVal f key) && !(isUndef dv)) = true
          · rw [if_pos hcond] at h
            simp only [setProp] at h
            have h2 := ih schema (setField f key dv) c g c' h k hk
            rw [fieldVal_setField] at h2
            by_cases hkk : k = key
            · rw [if_pos hkk] at h2
              rcases (show isUndef (fieldVal f key) = true ∧ isUndef dv = false by
                simpa using hcond) with ⟨hc1, hc2⟩
              rw [h2] at hc2
              exact absurd hc2 (by simp)
            · rw [if_neg hkk] at h2
              exact h2
          · rw [if_neg hcond] at h
            exact ih schema f c g c' h k hk

theorem normalizeKeys_idem : ∀ (keys : List String) (schema : JSVal)
    (f : List (String × JSVal)) (c : List String)
    (g : List (String × JSVal)) (c' : List String),
    normalizeKeys keys schema (.obj f c) = .ok (.obj g c') →
    normalizeKeys keys schema (.obj g c') = .ok (.obj g c') := by
  intro keys
  induction keys with
  | nil =>
      intro schema f c g c' h
      rfl
  | cons key rest ih =>
      intro schema f c g c' h
      unfold normalizeKeys at h ⊢
      rcases hg : getProp schema key with e | desc
      · simp only [hg] at h
        simp at h
      · simp only [hg] at h ⊢
        rcases hd : getProp desc "default" with e | dv
        · simp only [hd] at h
          simp at h
        · simp only [hd] at h ⊢
          simp only [getProp] at h ⊢
          by_cases hcond : (isUndef (fieldVal f key) && !(isUndef dv)) = true
          · rw [if_pos hcond] at h
            simp only [setProp] at h
            rcases (show isUndef (fieldVal f key) = true ∧ isUndef dv = false by
              simpa using hcond) with ⟨hc1, hc2⟩
            have hg2 : isUndef (fieldVal g key) = false := by
              cases hu : isUndef (fieldVal g key)
              · rfl
              · have h3 := normalizeKeys_undef_mono rest schema (setField f key dv) c g c' h key hu
                rw [fieldVal_setField, if_pos rfl] at h3
                rw [h3] at hc2
                exact absurd hc2 (by simp)
            rw [if_neg (by simp [hg2])]
            exact ih schema (setField f key dv) c g c' h
          · rw [if_neg hcond] at h
            have hcond2 : ¬(isUndef (fieldVal g key) && !(isUndef dv)) = true := by
              intro hc
              rcases (show isUndef (fieldVal g key) = true ∧ isUndef dv = false by
                simpa using hc) with ⟨hc1, hc2⟩
              have h3 := normalizeKeys_undef_mono rest schema f c g c' h key hc1
              exact hcond (by simp [h3, hc2])
            rw [if_neg hcond2]
            exact ih schema f c g c' h

end NormalizeLemmas

section ClaimC8

/-- Claim C8: `normalize` is idempotent on a second application — once a
pass over the schema has filled every undefined slot that has a
(non-undefined) default, a second pass finds no undefined slot left to fill
and returns the data unchanged. -/
theorem normalize_idempotent (schema : JSVal) (f : List (String × JSVal))
    (c : List String) (d : JSVal)
    (h : normalize schema (.obj f c) = .ok d) :
    normalize schema d = .ok d := by
  unfold normalize at h ⊢
  rcases hk : jsKeys schema with e | keys
  · simp only [hk] at h
    simp at h
  · simp only [hk] at h ⊢
    rcases normalizeKeys_obj keys schema f c d h with ⟨g, rfl⟩
    exact normalizeKeys_idem keys schema f c g c h

/-- Witness for C8 at a concrete schema with a default and an empty data
object. -/
theorem normalize_idempotent_witness :
    normalize (.obj [("name", .obj [("default", .str "Anon")] [])] [])
        (.obj [("name", .str "Anon")] []) =
      .ok (.obj [("name", .str "Anon")] []) :=
  normalize_idempotent (.obj [("name", .obj [("default", .str "Anon")] [])] [])
    [] [] (.obj [("name", .str "Anon")] []) rfl

end ClaimC8

end TypsoJs
